import Mathlib

/-!
Verification of the Scrcpy-Ultra-Launcher orchestration layer.

The definitions below are a shallow embedding of `src/main.py`:
Python strings that are parsed character by character are modelled as
`List Char`; strings that are only compared or concatenated are kept as
`String`; subprocess results are inputs to the embedded functions;
the Tk timer/queue behaviour is modelled as explicit state passing.
-/

namespace Scrcpy

/-! ## Python string primitives

Character-level models of the Python `str` operations used by the
launcher: `str.strip()`, `str.split("\n")`, `str.split("\t", 1)`,
substring membership (`in`), and `str.replace(" fps", "")`. -/

/-- Python `str.strip()` whitespace set (ASCII whitespace as stripped by CPython). -/
def isPySpace (c : Char) : Bool :=
  c = ' ' || c = '\t' || c = '\n' || c = '\r' || c = '\x0b' || c = '\x0c'

/-- Python `str.strip()`: drop leading and trailing whitespace. -/
def pyStrip (l : List Char) : List Char :=
  ((l.dropWhile isPySpace).reverse.dropWhile isPySpace).reverse

/-- Python `str.split("\n")`: split on every newline; `""` splits to `[""]`. -/
def splitLines : List Char → List (List Char)
  | [] => [[]]
  | c :: rest =>
    if c = '\n' then [] :: splitLines rest
    else
      match splitLines rest with
      | r :: rs => (c :: r) :: rs
      | [] => [[c]]

/-- Python `str.split("\t", 1)`: the part before the first tab and the part after it
(the whole string and `""` when no tab is present; callers guard on tab membership). -/
def splitTab1 : List Char → List Char × List Char
  | [] => ([], [])
  | c :: rest =>
    if c = '\t' then ([], rest)
    else
      let p := splitTab1 rest
      (c :: p.1, p.2)

/-- Python `needle in haystack` helper: does the pattern occur at the start? -/
def listStartsWith : List Char → List Char → Bool
  | [], _ => true
  | _ :: _, [] => false
  | a :: as, b :: bs => a = b && listStartsWith as bs

/-- Python substring membership `pat in l`. -/
def containsSub (pat : List Char) : List Char → Bool
  | [] => listStartsWith pat []
  | c :: rest => listStartsWith pat (c :: rest) || containsSub pat rest

/-- Python `str.lower()` on one character, restricted to ASCII (the serials,
IPs and bridge-tool messages this launcher lowercases are ASCII). -/
def asciiLower (c : Char) : Char :=
  if 'A' ≤ c && c ≤ 'Z' then Char.ofNat (c.toNat + 32) else c

/-- Python `str.lower()` over a character list (ASCII). -/
def lowerList (l : List Char) : List Char := l.map asciiLower

/-- Python `s.replace(" fps", "")` specialised to the fixed pattern of
`_on_start_clicked` (src/main.py:2193): remove every occurrence of `" fps"`. -/
def removeFps : List Char → List Char
  | ' ' :: 'f' :: 'p' :: 's' :: rest => removeFps rest
  | c :: rest => c :: removeFps rest
  | [] => []

/-- Python `re.search(r'\((\d+)\)', s)` group 1 (src/main.py:2188): the digit run of
the first `(digits)` occurrence, scanning left to right. -/
def parenDigits : List Char → Option (List Char)
  | [] => none
  | '(' :: rest =>
    let ds := rest.takeWhile Char.isDigit
    let tail := rest.dropWhile Char.isDigit
    if ds ≠ [] && tail.head? = some ')' then some ds
    else parenDigits rest
  | _ :: rest => parenDigits rest

/-! ## Recommendation Engine (`AutoConfig`, src/main.py:459-551)

The two hardware probes (`get_pc_ram_gb`, `get_device_screen_size`) run
subprocesses; their results are inputs of the embedded
`generate_recommendation`, exactly as they feed the decision at
src/main.py:515-551. -/

/-- Result record of `AutoConfig.generate_recommendation` (src/main.py:543-551). -/
structure Recommendation where
  resolution : String
  fps : String
  bitrate : Int
  codec : String
  device_model : String
  pc_ram : Nat
  screen_size : Option (Nat × Nat)
deriving DecidableEq

/-- Embedding of `AutoConfig.generate_recommendation` (src/main.py:515-551):
`pc_ram` is the host RAM in GiB, `screen_size` the optional device screen size. -/
def generate_recommendation (pc_ram : Nat) (screen_size : Option (Nat × Nat))
    (device_model : String) : Recommendation :=
  let max_dimension : Nat :=
    match screen_size with
    | some (w, h) => max w h
    | none => 0
  let (resolution, bitrate) : String × Int :=
    if max_dimension > 2500 ∧ pc_ram ≥ 16 then ("2K (2560)", 20)
    else ("1080P (1920)", 10)
  { resolution := resolution
    fps := "60 fps"
    bitrate := bitrate
    codec := "H.264 (Low Latency)"
    device_model := device_model
    pc_ram := pc_ram
    screen_size := screen_size }

/-- Larger dimension of an optional screen size, `0` when unobtainable
(src/main.py:526-529). -/
def screenMaxDim : Option (Nat × Nat) → Nat
  | some (w, h) => max w h
  | none => 0

/-! ## Hotplug Watcher (`DeviceMonitor.run`, src/main.py:69-116)

One pass of the inner read loop is modelled over the sequence of
`readline` results observed before the loop exits (the loop exits when
`poll()` turns non-`None`; a `readline` at end of stream yields `""`,
modelled as the empty char list).  Each non-empty line seen while
`_first_output` is still set only clears the flag; every later
non-empty line schedules one debounced refresh via
`app.after(0, app._schedule_refresh)`. -/

/-- Number of refresh requests scheduled by the inner read loop of
`DeviceMonitor.run` (src/main.py:89-101), given the `_first_output` flag and
the lines read before the loop exits. -/
def refreshTriggers : Bool → List (List Char) → Nat
  | _, [] => 0
  | first, line :: rest =>
    if line ≠ [] then
      if first then refreshTriggers false rest
      else 1 + refreshTriggers false rest
    else refreshTriggers first rest

/-- Outcome of one iteration of the outer loop of `DeviceMonitor.run`:
the spawn succeeded and the tracking process later exited after the given
lines were read, or the spawn raised `FileNotFoundError`, or some other
exception was raised (src/main.py:74-109). -/
inductive SpawnResult where
  | ok (lines : List (List Char))
  | notFound
  | error
deriving DecidableEq

/-- Seconds slept at the end of one outer-loop iteration of `DeviceMonitor.run`
before the next spawn: `time.sleep(5)` on `FileNotFoundError` (src/main.py:103-105),
`time.sleep(2)` on any other exception (src/main.py:106-109), and no sleep at all
when the tracking subprocess simply exited (the inner loop `break`s at
src/main.py:90-92 and the outer `while` re-spawns immediately). -/
def iterationSleep : SpawnResult → Nat
  | .ok _ => 0
  | .notFound => 5
  | .error => 2

/-- Refresh requests scheduled during one outer-loop iteration: only a
successful spawn reads lines (src/main.py:89-101). -/
def iterationRefreshes : SpawnResult → Nat
  | .ok lines => refreshTriggers true lines
  | .notFound => 0
  | .error => 0

/-- Trace of `DeviceMonitor.run` over a script of successive spawn outcomes
(the stop event never set): each outcome yields one `(sleep, refreshes)` pair
and the loop then transitions back to Starting, consuming the next outcome. -/
def monitorRun : List SpawnResult → List (Nat × Nat)
  | [] => []
  | r :: rest => (iterationSleep r, iterationRefreshes r) :: monitorRun rest

/-! ## Debounce (`_schedule_refresh` / `_do_scheduled_refresh`, src/main.py:1527-1544)

Time is in milliseconds.  A request at time `t` first observes a pending
timer: a deadline `d ≤ t` has already fired on the single Tk thread
(counted as a run of `_do_scheduled_refresh`), a deadline `d > t` is
cancelled by `after_cancel`; either way the request schedules a fresh
timer at `t + 1000` (`self.after(1000, ...)`).  After the last request
the remaining pending timer fires. -/

/-- Debounce delay of `_schedule_refresh` in milliseconds (src/main.py:1538):
the spec's one time-unit. -/
def debounceDelay : Nat := 1000

/-- Times at which `_do_scheduled_refresh` runs, given the request times
(ascending) and the currently pending timer deadline. -/
def debounceRun : List Nat → Option Nat → List Nat
  | [], pending =>
    match pending with
    | some d => [d]
    | none => []
  | t :: ts, pending =>
    match pending with
    | some d =>
      if d ≤ t then d :: debounceRun ts (some (t + debounceDelay))
      else debounceRun ts (some (t + debounceDelay))
    | none => debounceRun ts (some (t + debounceDelay))

/-! ## Device Directory parsing (`_scan_devices`, src/main.py:1974-2020) -/

/-- Status token of a ready device. -/
def deviceTok : List Char := "device".toList

/-- Per-line filter of `_scan_devices` (src/main.py:1990-1995): strip the line,
require it non-empty and tab-containing, split once on the first tab and keep
the serial when the remainder is exactly `"device"`. -/
def parseDeviceLine (line : List Char) : Option (List Char) :=
  let l := pyStrip line
  if l ≠ [] ∧ '\t' ∈ l then
    let p := splitTab1 l
    if p.2 = deviceTok then some p.1 else none
  else none

/-- Embedding of the parsing phase of `_scan_devices` (src/main.py:1987-1995):
`result.stdout.strip().split("\n")`, skip the header line, keep ready serials. -/
def scanParse (stdout : List Char) : List (List Char) :=
  ((splitLines (pyStrip stdout)).drop 1).filterMap parseDeviceLine

/-- Header line printed by `adb devices` before the device entries. -/
def adbHeader : List Char := "List of devices attached".toList

/-- Join lines with single newlines (inverse of `splitLines` on newline-free lines). -/
def joinNL : List (List Char) → List Char
  | [] => []
  | [x] => x
  | x :: y :: rest => x ++ '\n' :: joinNL (y :: rest)

/-- Rendering of a device table as the bridge tool prints it: the header line
followed by one `serial<TAB>status` line per entry. -/
def renderDeviceList (entries : List (List Char × List Char)) : List Char :=
  joinNL (adbHeader :: entries.map fun e => e.1 ++ '\t' :: e.2)

/-- Well-formed device-table entry: serial and status are non-empty and contain
no whitespace (in particular no tab and no newline). -/
def WFEntry (e : List Char × List Char) : Prop :=
  e.1 ≠ [] ∧ e.2 ≠ [] ∧ (∀ c ∈ e.1, isPySpace c = false) ∧ ∀ c ∈ e.2, isPySpace c = false

instance (e : List Char × List Char) : Decidable (WFEntry e) :=
  inferInstanceAs (Decidable (_ ∧ _ ∧ _ ∧ _))

/-- Declarative enumeration result taken from the spec's words: keep exactly the
entries whose status token is `"device"`. -/
def enumerateSpec (entries : List (List Char × List Char)) : List (List Char) :=
  (entries.filter fun e => e.2 = deviceTok).map Prod.fst

/-! ## Application state touched by the enumeration / wireless-connect flow -/

/-- Stream-parameter variables of the UI (src/main.py:683-686): the resolution,
fps and codec combo boxes hold display strings, the bitrate slider an int. -/
structure StreamParams where
  resolution : String
  fps : String
  bitrate : Int
  codec : String
deriving DecidableEq

/-- Device entry as held by `_device_serial_map` (src/main.py:2001-2007):
display name and serial. -/
structure Device where
  name : String
  serial : String
deriving DecidableEq

/-- Log events relevant to the enumeration flow (symbolic stand-ins for the
localized `LOCALE` messages written by `_log`). -/
inductive LogEvt where
  | gettingInfo
  | foundDevices (n : Nat)
  | noDevice
  | autoSelect (name : String)
  | adbNotFound
  | adbTimeout
  | scanFailed
deriving DecidableEq

/-- Placeholder shown when the dropdown holds no device (`LOCALE["no_device"]`). -/
def noDeviceText : String := "No device found"

/-- Slice of the launcher state read and written by `_update_device_dropdown`
and `_connect_wireless`. -/
structure AppState where
  pending : Option String
  selection : String
  params : StreamParams
  startEnabled : Bool
  lastIp : String
deriving DecidableEq

/-- Mutation performed by `_apply_auto_config` (src/main.py:1115-1119): the four
stream parameters are overwritten with the recommendation's values. -/
def applyAutoConfig (r : Recommendation) (_old : StreamParams) : StreamParams :=
  { resolution := r.resolution, fps := r.fps, bitrate := r.bitrate, codec := r.codec }

/-- Pending-wireless auto-select step of `_update_device_dropdown`
(src/main.py:2086-2097): when a pending serial is found among the scanned
devices, the selection moves to its display name, the pending mark is cleared,
an auto-select line is logged and the `selected` flag is set. -/
def pendingSelectPhase (devices : List Device) (st : AppState) :
    AppState × List LogEvt × Bool :=
  match st.pending with
  | some target =>
    match devices.find? (fun d => d.serial = target) with
    | some d =>
      ({ st with selection := d.name, pending := none }, [.autoSelect d.name], true)
    | none => (st, [], false)
  | none => (st, [], false)

/-- Fallback-selection step of `_update_device_dropdown` (src/main.py:2099-2103):
when no pending device was selected and the current selection is stale, select
the first display name. -/
def fallbackSelectPhase (n0 : String) (names : List String)
    (ap : AppState × List LogEvt × Bool) : AppState :=
  if ap.2.2 then ap.1
  else if names.contains ap.1.selection then ap.1
  else { ap.1 with selection := n0 }

/-- Auto-configuration step of `_update_device_dropdown` (src/main.py:2108-2113):
resolve the selected display name back to a serial and apply the Recommendation
Engine output to the stream parameters. -/
def autoConfigPhase (devices : List Device) (ram : Nat)
    (screenOf : String → Option (Nat × Nat)) (modelOf : String → String)
    (st2 : AppState) : AppState :=
  match devices.find? (fun d => d.name = st2.selection) with
  | some d =>
    let r := generate_recommendation ram (screenOf d.serial) (modelOf d.serial)
    { st2 with params := applyAutoConfig r st2.params }
  | none => st2

/-- Embedding of `_update_device_dropdown` (src/main.py:2078-2119) followed by the
`_apply_auto_config` call it makes.  `devices` is the insertion-ordered content of
`_device_serial_map` (which coincides with the scanned device list whenever the
display names are distinct); `ram`, `screenOf` and `modelOf` are the hardware
probes consumed by `AutoConfig.generate_recommendation`. -/
def updateDeviceDropdown (devices : List Device) (ram : Nat)
    (screenOf : String → Option (Nat × Nat)) (modelOf : String → String)
    (st : AppState) : AppState × List LogEvt :=
  match devices.map Device.name with
  | [] =>
    ({ st with selection := noDeviceText, startEnabled := false }, [.noDevice])
  | n0 :: ns =>
    let ap := pendingSelectPhase devices st
    let st2 := fallbackSelectPhase n0 (n0 :: ns) ap
    let st3 := autoConfigPhase devices ram screenOf modelOf st2
    ({ st3 with startEnabled := true },
     ap.2.1 ++ [.foundDevices (n0 :: ns).length])

/-- Result of the `adb devices` call made by `_scan_devices`
(src/main.py:1976-2020): captured stdout, `FileNotFoundError`,
`subprocess.TimeoutExpired`, or any other exception. -/
inductive AdbDevicesResult where
  | output (stdout : List Char)
  | notFound
  | timedOut
  | failed
deriving DecidableEq

/-- Embedding of `_scan_devices` (src/main.py:1974-2020): parse the device table,
resolve display names through the `nameOf` probe, and hand the list to
`_update_device_dropdown`; every failure is caught, logged, and converted into
an empty dropdown update — the function is total, never a fatal error. -/
def scanDevices (r : AdbDevicesResult) (nameOf : String → String) (ram : Nat)
    (screenOf : String → Option (Nat × Nat)) (modelOf : String → String)
    (st : AppState) : AppState × List LogEvt :=
  match r with
  | .output out =>
    let serials := scanParse out
    let devices := serials.map fun s => Device.mk (nameOf s.asString) s.asString
    let upd := updateDeviceDropdown devices ram screenOf modelOf st
    (upd.1, (if serials.isEmpty then [] else [.gettingInfo]) ++ upd.2)
  | .notFound =>
    let upd := updateDeviceDropdown [] ram screenOf modelOf st
    (upd.1, .adbNotFound :: upd.2)
  | .timedOut =>
    let upd := updateDeviceDropdown [] ram screenOf modelOf st
    (upd.1, .adbTimeout :: upd.2)
  | .failed =>
    let upd := updateDeviceDropdown [] ram screenOf modelOf st
    (upd.1, .scanFailed :: upd.2)

/-- Embedding of the state mutation of `_connect_wireless` (src/main.py:2121-2162):
when the connect output contains `"connected"` (case-insensitively), the target
serial `ip:5555` is marked pending-select and the last wireless IP is remembered;
otherwise the state is unchanged. -/
def connectWireless (ip output : String) (st : AppState) : AppState :=
  if containsSub "connected".toList (lowerList output.toList) then
    { st with pending := some (ip ++ ":5555"), lastIp := ip }
  else st

/-! ## Config persistence (`_save_config` / `_load_config`, src/main.py:1360-1455) -/

/-- UI variables covered by the persistence round trip: the stream-parameter
variables of `_create_variables` (src/main.py:672-686) together with the
checkbox and position variables the spec counts into StreamParameters. -/
structure UiConfigState where
  resolution : String
  fps : String
  bitrate : Int
  codec : String
  screenOff : Bool
  borderless : Bool
  printFps : Bool
  windowPosition : String
  showLog : Bool
deriving DecidableEq

/-- Variable defaults set by `_create_variables` (src/main.py:670-700), the state
in which `_load_config` runs at startup. -/
def initialUiConfigState : UiConfigState :=
  { resolution := "1080P (1920)"
    fps := "60 fps"
    bitrate := 16
    codec := "H.264 (Low Latency)"
    screenOff := false
    borderless := false
    printFps := false
    windowPosition := "center"
    showLog := true }

/-- Content of `config.json` as written by `_save_config` (src/main.py:1440-1449):
these eight keys, and nothing else, are persisted. -/
structure SavedConfig where
  resolution : String
  fps : String
  bitrate : Int
  codec : String
  screen_off : Bool
  last_ip : String
  language : String
  show_tutorial : Bool
deriving DecidableEq

/-- Embedding of `_save_config` (src/main.py:1437-1455). -/
def saveConfig (u : UiConfigState) (lastIp lang : String) (tut : Bool) : SavedConfig :=
  { resolution := u.resolution
    fps := u.fps
    bitrate := u.bitrate
    codec := u.codec
    screen_off := u.screenOff
    last_ip := lastIp
    language := lang
    show_tutorial := tut }

/-- Embedding of the stream-parameter restoration of `_load_config`
(src/main.py:1360-1399) applied to a saved file in which every key is present
(as `_save_config` always writes them): only resolution, fps, bitrate, codec and
screen_off are restored; borderless, print-fps, window position and show-log are
not read from the file and keep the startup defaults. -/
def loadConfig (c : SavedConfig) (u : UiConfigState) : UiConfigState :=
  { u with
    resolution := c.resolution
    fps := c.fps
    bitrate := c.bitrate
    codec := c.codec
    screenOff := c.screen_off }

/-! ## Session Supervisor launch command (`_on_start_clicked`, src/main.py:2164-2231) -/

/-- Values of the resolution combo box (src/main.py:864). -/
inductive MaxDimOpt where
  | native
  | d2560
  | d1920
  | d1280
deriving DecidableEq

/-- Display string the resolution combo box stores for each choice. -/
def MaxDimOpt.display : MaxDimOpt → String
  | .native => "Native"
  | .d2560 => "2K (2560)"
  | .d1920 => "1080P (1920)"
  | .d1280 => "720P (1280)"

/-- Numeric max dimension of each resolution choice, `none` for Native. -/
def MaxDimOpt.flagValue : MaxDimOpt → Option Nat
  | .native => none
  | .d2560 => some 2560
  | .d1920 => some 1920
  | .d1280 => some 1280

/-- Values of the fps combo box (src/main.py:891). -/
inductive FpsChoice where
  | f120
  | f90
  | f60
  | f30
deriving DecidableEq

/-- Display string the fps combo box stores for each choice. -/
def FpsChoice.display : FpsChoice → String
  | .f120 => "120 fps"
  | .f90 => "90 fps"
  | .f60 => "60 fps"
  | .f30 => "30 fps"

/-- Numeric fps of each choice. -/
def FpsChoice.value : FpsChoice → Nat
  | .f120 => 120
  | .f90 => 90
  | .f60 => 60
  | .f30 => 30

/-- Values of the codec combo box (src/main.py:918). -/
inductive CodecChoice where
  | h264
  | h265
deriving DecidableEq

/-- Display string the codec combo box stores for each choice. -/
def CodecChoice.display : CodecChoice → String
  | .h264 => "H.264 (Low Latency)"
  | .h265 => "H.265 (High Quality)"

/-- Codec flag value passed to the mirroring tool. -/
def CodecChoice.flag : CodecChoice → String
  | .h264 => "h264"
  | .h265 => "h265"

/-- Window-position choices (src/main.py:675,983-987). -/
inductive WinPosChoice where
  | center
  | topLeft
  | topRight
deriving DecidableEq

/-- Internal key `window_position` stores for each choice. -/
def WinPosChoice.key : WinPosChoice → String
  | .center => "center"
  | .topLeft => "top-left"
  | .topRight => "top-right"

/-- Validated StreamParameters data model as the spec defines it (spec section 3). -/
structure StreamParameters where
  maxDimension : MaxDimOpt
  maxFps : FpsChoice
  bitrate : Int
  codec : CodecChoice
  screenOff : Bool
  borderless : Bool
  printFps : Bool
  windowPosition : WinPosChoice
deriving DecidableEq

/-- Resolution flags of `_on_start_clicked` (src/main.py:2184-2190): skip for
`"Native"`, otherwise regex-extract the parenthesised number from the stored
display string. -/
def resolutionArgs (resolution : String) : List String :=
  if resolution = "Native" then []
  else
    match parenDigits resolution.toList with
    | some ds => ["-m", ds.asString]
    | none => []

/-- Max-fps flag of `_on_start_clicked` (src/main.py:2192-2194): strip `" fps"`
from the stored display string. -/
def fpsArg (fps : String) : String :=
  "--max-fps=" ++ (removeFps fps.toList).asString

/-- Codec flag of `_on_start_clicked` (src/main.py:2196-2199). -/
def codecArg (codec : String) : String :=
  "--video-codec=" ++ (if containsSub "H.264".toList codec.toList then "h264" else "h265")

/-- Window-position flags of `_on_start_clicked` (src/main.py:2219-2228). -/
def positionArgs (position : String) (screenWidth : Int) : List String :=
  if position = "top-left" then ["--window-x", "50", "--window-y", "50"]
  else if position = "top-right" then
    ["--window-x", toString (screenWidth - 500), "--window-y", "50"]
  else []

/-- Embedding of the argument-list construction of `_on_start_clicked`
(src/main.py:2177-2231), taking the tkinter variables exactly as stored:
display strings for resolution, fps and codec, the int bitrate, the option
booleans, the position key and the host screen width. -/
def buildScrcpyCommand (scrcpyPath device : String)
    (resolution fps codec : String) (bitrate : Int)
    (screenOff borderless printFps : Bool)
    (position : String) (screenWidth : Int) : List String :=
  [scrcpyPath, "-s", device]
    ++ resolutionArgs resolution
    ++ [fpsArg fps]
    ++ [codecArg codec]
    ++ ["-b", toString bitrate ++ "M"]
    ++ (if screenOff then ["--turn-screen-off"] else [])
    ++ (if borderless then ["--window-borderless"] else [])
    ++ (if printFps then ["--print-fps"] else [])
    ++ positionArgs position screenWidth
    ++ ["--shortcut-mod=lctrl"]

/-- Modelled from the spec: resolution flags computed from the data-model field. -/
def modelResolutionArgs (md : MaxDimOpt) : List String :=
  match md.flagValue with
  | some n => ["-m", toString n]
  | none => []

/-- Modelled from the spec: window-position flags computed from the data-model field. -/
def modelPositionArgs (wp : WinPosChoice) (screenWidth : Int) : List String :=
  match wp with
  | .center => []
  | .topLeft => ["--window-x", "50", "--window-y", "50"]
  | .topRight => ["--window-x", toString (screenWidth - 500), "--window-y", "50"]

/-- Modelled from the spec: the launch argument list computed strictly from the
validated StreamParameters data model, numeric fields taken directly from the
record fields. -/
def buildCommandFromModel (scrcpyPath device : String) (p : StreamParameters)
    (screenWidth : Int) : List String :=
  [scrcpyPath, "-s", device]
    ++ modelResolutionArgs p.maxDimension
    ++ ["--max-fps=" ++ toString p.maxFps.value]
    ++ ["--video-codec=" ++ p.codec.flag]
    ++ ["-b", toString p.bitrate ++ "M"]
    ++ (if p.screenOff then ["--turn-screen-off"] else [])
    ++ (if p.borderless then ["--window-borderless"] else [])
    ++ (if p.printFps then ["--print-fps"] else [])
    ++ modelPositionArgs p.windowPosition screenWidth
    ++ ["--shortcut-mod=lctrl"]

/-! ## Session Supervisor lifecycle (src/main.py:2240-2374)

The session state of spec section 3 mapped onto the code:
`current_scrcpy_process` (src/main.py:680,2255,2326) is the child-process
handle; Monitoring is the show-log branch (src/main.py:2258-2276), Silent the
hidden-window branch (src/main.py:2277-2283); a monitoring-mode child exit
schedules application shutdown (src/main.py:2362-2374) without ever clearing
the handle, modelled as the absorbing `terminated` state. -/

/-- Session states: spec section 3's Idle/Monitoring/Silent plus the terminal
state the application enters when a monitoring-mode child exits. -/
inductive SessionState where
  | idle
  | monitoring
  | silent
  | terminated
deriving DecidableEq

/-- Launch mode chosen by the `show_log_on_start` checkbox (src/main.py:2258). -/
inductive LaunchMode where
  | monitoring
  | silent
deriving DecidableEq

/-- Supervisor state: session phase and the optional child-process handle
(`current_scrcpy_process`), with the handle abstracted to a pid. -/
structure SupervisorState where
  session : SessionState
  handle : Option Nat
deriving DecidableEq

/-- Events driving the supervisor: `Popen` succeeded (src/main.py:2243-2255),
`Popen` raised (src/main.py:2285-2288, the handle is never assigned), or the
child process was observed to have exited (src/main.py:2324 or 2366). -/
inductive SupEvent where
  | startOk (pid : Nat) (mode : LaunchMode)
  | startFail
  | childExit
deriving DecidableEq

/-- Transition function of the session supervisor.  A successful launch stores
the handle and enters the chosen mode (the source has no active-session guard,
spec section 9); a failed launch changes nothing; a child exit in silent mode
clears the handle and restores Idle (src/main.py:2324-2333), in monitoring mode
it schedules application shutdown, leaving the handle assigned
(src/main.py:2362-2381). -/
def supStep (s : SupervisorState) : SupEvent → SupervisorState
  | .startOk pid mode =>
    { session := match mode with
        | .monitoring => .monitoring
        | .silent => .silent
      handle := some pid }
  | .startFail => s
  | .childExit =>
    match s.session with
    | .silent => { session := .idle, handle := none }
    | .monitoring => { session := .terminated, handle := s.handle }
    | _ => s

/-- Initial supervisor state: no session, `current_scrcpy_process = None`
(src/main.py:680). -/
def supInit : SupervisorState := { session := .idle, handle := none }

/-- Reachable supervisor states. -/
inductive SupReachable : SupervisorState → Prop where
  | init : SupReachable supInit
  | step {s : SupervisorState} (e : SupEvent) :
      SupReachable s → SupReachable (supStep s e)

/-! ## Theorems -/

/-- C1: the Recommendation Engine outputs the high tier (resolution `2K (2560)`,
bitrate 20) if and only if the larger screen dimension exceeds 2500 and the host
RAM is at least 16 GiB; in every other case, including an unobtainable screen
size (`screenMaxDim none = 0`), it outputs the standard tier (`1080P (1920)`,
bitrate 10); fps and codec are the constants `60 fps` and the H.264 codec,
independent of the inputs. -/
theorem claim1_recommendation_tiers (ram : Nat) (ss : Option (Nat × Nat)) (model : String) :
    (generate_recommendation ram ss model).fps = "60 fps" ∧
    (generate_recommendation ram ss model).codec = "H.264 (Low Latency)" ∧
    ((generate_recommendation ram ss model).resolution = "2K (2560)" ∧
        (generate_recommendation ram ss model).bitrate = 20 ↔
      2500 < screenMaxDim ss ∧ 16 ≤ ram) ∧
    ((generate_recommendation ram ss model).resolution = "1080P (1920)" ∧
        (generate_recommendation ram ss model).bitrate = 10 ↔
      ¬(2500 < screenMaxDim ss ∧ 16 ≤ ram)) := by
  have hdim : ∀ m : String,
      generate_recommendation ram ss m =
        if 2500 < screenMaxDim ss ∧ 16 ≤ ram then
          { resolution := "2K (2560)", fps := "60 fps", bitrate := 20,
            codec := "H.264 (Low Latency)", device_model := m, pc_ram := ram,
            screen_size := ss }
        else
          { resolution := "1080P (1920)", fps := "60 fps", bitrate := 10,
            codec := "H.264 (Low Latency)", device_model := m, pc_ram := ram,
            screen_size := ss } := by
    intro m
    cases ss with
    | none =>
      simp only [generate_recommendation, screenMaxDim]
      split_ifs with hc
      · rfl
      · rfl
    | some p =>
      obtain ⟨pw, ph⟩ := p
      simp only [generate_recommendation, screenMaxDim]
      split_ifs with hc
      · rfl
      · rfl
  rw [hdim]
  by_cases hc : 2500 < screenMaxDim ss ∧ 16 ≤ ram
  · rw [if_pos hc]
    refine ⟨rfl, rfl, ?_, ?_⟩
    · simp [hc]
    · simp [hc]
  · rw [if_neg hc]
    refine ⟨rfl, rfl, ?_, ?_⟩
    · simp [hc]
    · simp [hc]

/-- Regex extraction from each stored resolution display string yields exactly
the data-model max dimension. -/
theorem resolutionArgs_display (md : MaxDimOpt) :
    resolutionArgs md.display = modelResolutionArgs md := by
  cases md <;> decide

/-- Stripping `" fps"` from each stored fps display string yields exactly the
data-model fps value. -/
theorem fpsArg_display (f : FpsChoice) :
    fpsArg f.display = "--max-fps=" ++ toString f.value := by
  cases f <;> decide

/-- The substring test on each stored codec display string yields exactly the
data-model codec flag. -/
theorem codecArg_display (c : CodecChoice) :
    codecArg c.display = "--video-codec=" ++ c.flag := by
  cases c <;> decide

/-- The position-key comparisons yield exactly the data-model position flags. -/
theorem positionArgs_key (wp : WinPosChoice) (w : Int) :
    positionArgs wp.key w = modelPositionArgs wp w := by
  cases wp <;> with_unfolding_all rfl

/-- C2: for every value of the validated StreamParameters data model, the
argument list `_on_start_clicked` assembles from the stored UI variables equals
the one computed directly from the data-model fields (max dimension, max fps
and bitrate taken from the numeric fields, not reconstructed differently from
any display text). -/
theorem claim2_launch_command_from_data_model (path dev : String)
    (p : StreamParameters) (w : Int) :
    buildScrcpyCommand path dev p.maxDimension.display p.maxFps.display
        p.codec.display p.bitrate p.screenOff p.borderless p.printFps
        p.windowPosition.key w
      = buildCommandFromModel path dev p w := by
  unfold buildScrcpyCommand buildCommandFromModel
  rw [resolutionArgs_display, fpsArg_display, codecArg_display, positionArgs_key]

/-- C4 counterexample: when the tracking subprocess simply exits, the watcher
does not wait at all before restarting (the claimed 2- or 5-unit wait does not
happen): the sleep on a plain process exit is 0. -/
theorem claim4_counterexample :
    iterationSleep (.ok []) = 0 ∧
    ¬(iterationSleep (.ok []) = 2 ∨ iterationSleep (.ok []) = 5) := by
  decide

/-- C4 amended: the watcher waits 5 time-units when the tool executable is not
found and 2 time-units on any other error, but restarts immediately (no wait)
when the tracking subprocess merely exits; in every case the loop transitions
back to the Starting state and spawns again (each scripted outcome produces
exactly one iteration and the loop proceeds to the next spawn). -/
theorem claim4_watcher_restart_waits :
    iterationSleep .notFound = 5 ∧
    iterationSleep .error = 2 ∧
    (∀ lines, iterationSleep (.ok lines) = 0) ∧
    (∀ script, (monitorRun script).length = script.length) := by
  refine ⟨rfl, rfl, fun _ => rfl, ?_⟩
  intro script
  induction script with
  | nil => rfl
  | cons r rest ih => simp [monitorRun, ih]

/-- Nonempty lines after the first-output flag is cleared each schedule exactly
one refresh (src/main.py:94-101). -/
theorem refreshTriggers_all_nonempty (ls : List (List Char))
    (h : ∀ x ∈ ls, x ≠ []) :
    refreshTriggers false ls = ls.length := by
  induction ls with
  | nil => rfl
  | cons l rest ih =>
    have hl : l ≠ [] := h l (List.mem_cons_self l rest)
    have hrest : ∀ x ∈ rest, x ≠ [] := fun x hx => h x (List.mem_cons_of_mem l hx)
    simp [refreshTriggers, hl, ih hrest]
    omega

/-- C5: after each (re)start of the tracking subprocess the first output line
is discarded unconditionally (the read loop starting with the `_first_output`
flag set behaves on `l :: rest` exactly as the cleared loop on `rest`), and
every subsequent non-empty line schedules one debounced refresh: a burst of
`1 + k` non-empty lines schedules exactly `k` refreshes. -/
theorem claim5_first_line_discarded (l : List Char) (rest : List (List Char))
    (hl : l ≠ []) (hrest : ∀ x ∈ rest, x ≠ []) :
    refreshTriggers true (l :: rest) = refreshTriggers false rest ∧
    refreshTriggers true (l :: rest) = rest.length := by
  have h1 : refreshTriggers true (l :: rest) = refreshTriggers false rest := by
    simp [refreshTriggers, hl]
  exact ⟨h1, h1.trans (refreshTriggers_all_nonempty rest hrest)⟩

/-- C5 witness: a freshly started loop reading three non-empty lines schedules
exactly two refreshes, none for the first line. -/
theorem claim5_witness :
    refreshTriggers true ["a".toList, "b".toList, "c".toList]
        = refreshTriggers false ["b".toList, "c".toList] ∧
    refreshTriggers true ["a".toList, "b".toList, "c".toList] = 2 :=
  claim5_first_line_discarded "a".toList ["b".toList, "c".toList]
    (by decide) (by decide)

/-- Chain condition for a burst: requests are ordered and each one arrives
before the pending timer of its predecessor fires. -/
def InBurst (a b : Nat) : Prop := a ≤ b ∧ b < a + debounceDelay

instance (a b : Nat) : Decidable (InBurst a b) :=
  inferInstanceAs (Decidable (a ≤ b ∧ b < a + debounceDelay))

/-- With a timer pending one delay after `t`, a chain of burst requests keeps
rescheduling, and the single firing happens one delay after the last request. -/
theorem debounceRun_pending (ts : List Nat) (t : Nat)
    (h : List.Chain InBurst t ts) :
    debounceRun ts (some (t + debounceDelay)) = [ts.getLastD t + debounceDelay] := by
  induction ts generalizing t with
  | nil => rfl
  | cons t' rest ih =>
    rcases h with _ | ⟨⟨hle, hlt⟩, hchain⟩
    have hnot : ¬(t + debounceDelay ≤ t') := by omega
    simp only [debounceRun, if_neg hnot, List.getLastD_cons]
    exact ih t' hchain

/-- C3: for every burst of `1 + k` refresh requests in which each request
arrives within the debounce window of its predecessor, exactly one device-list
refresh fires (each request cancels the pending timer and schedules a new one
`debounceDelay` out), and it fires one delay after the last request of the
burst. -/
theorem claim3_debounce_coalesces (t : Nat) (ts : List Nat)
    (h : List.Chain InBurst t ts) :
    debounceRun (t :: ts) none = [(t :: ts).getLast (by simp) + debounceDelay] := by
  have h1 : debounceRun (t :: ts) none = debounceRun ts (some (t + debounceDelay)) := rfl
  rw [h1, debounceRun_pending ts t h]
  rw [List.getLast_eq_getLastD]

/-- C3 witness: three requests at 0, 200 and 999 milliseconds coalesce into a
single refresh at 1999 milliseconds. -/
theorem claim3_witness : debounceRun [0, 200, 999] none = [1999] := by
  have hchain : List.Chain InBurst 0 [200, 999] :=
    List.Chain.cons (show InBurst 0 200 from ⟨by decide, by decide⟩)
      (List.Chain.cons (show InBurst 200 999 from ⟨by decide, by decide⟩)
        List.Chain.nil)
  have h := claim3_debounce_coalesces 0 [200, 999] hchain
  simpa using h

/-- Invariant of the session supervisor over all reachable states: the
child-process handle is non-null exactly outside Idle. -/
theorem supervisor_invariant (s : SupervisorState) (h : SupReachable s) :
    s.handle ≠ none ↔ s.session ≠ .idle := by
  induction h with
  | init => simp [supInit]
  | @step s' e _ ih =>
    cases e with
    | startOk pid mode => cases mode <;> simp [supStep]
    | startFail => simpa [supStep] using ih
    | childExit =>
      cases hs : s'.session <;>
        simp_all [supStep]

/-- C9: in every reachable supervisor state the handle is non-null iff the
session state is not Idle; the handle goes from null to non-null exactly on a
transition out of Idle (a successful launch into Monitoring or Silent), and
returns to null exactly on the transition back to Idle (the silent-mode child
exit; a monitoring-mode child exit terminates the application instead and never
clears the handle). -/
theorem claim9_handle_iff_not_idle (s : SupervisorState) (h : SupReachable s) :
    (s.handle ≠ none ↔ s.session ≠ .idle) ∧
    (∀ e : SupEvent,
      (s.handle = none ∧ (supStep s e).handle ≠ none) ↔
        (s.session = .idle ∧ (supStep s e).session ≠ .idle)) ∧
    (∀ e : SupEvent,
      (s.handle ≠ none ∧ (supStep s e).handle = none) ↔
        (s.session ≠ .idle ∧ (supStep s e).session = .idle)) := by
  have inv := supervisor_invariant s h
  refine ⟨inv, ?_, ?_⟩
  · intro e
    have inv' := supervisor_invariant (supStep s e) (SupReachable.step e h)
    constructor
    · rintro ⟨h1, h2⟩
      refine ⟨?_, inv'.mp h2⟩
      by_contra hni
      exact (inv.mpr hni) h1
    · rintro ⟨h1, h2⟩
      refine ⟨?_, inv'.mpr h2⟩
      by_contra hne
      exact (inv.mp hne) h1
  · intro e
    have inv' := supervisor_invariant (supStep s e) (SupReachable.step e h)
    constructor
    · rintro ⟨h1, h2⟩
      refine ⟨inv.mp h1, ?_⟩
      by_contra hni
      exact (inv'.mpr hni) h2
    · rintro ⟨h1, h2⟩
      refine ⟨inv.mpr h1, ?_⟩
      by_contra hne
      exact (inv'.mp hne) h2

/-- C9 witness: the invariant and both transition characterisations instantiated
at the initial state with a successful silent launch. -/
theorem claim9_witness :
    ((supInit.handle ≠ none ↔ supInit.session ≠ .idle) ∧
      ((supInit.handle = none ∧ (supStep supInit (.startOk 1 .silent)).handle ≠ none) ↔
        (supInit.session = .idle ∧
          (supStep supInit (.startOk 1 .silent)).session ≠ .idle)) ∧
      ((supInit.handle ≠ none ∧ (supStep supInit (.startOk 1 .silent)).handle = none) ↔
        (supInit.session ≠ .idle ∧
          (supStep supInit (.startOk 1 .silent)).session = .idle))) := by
  have h := claim9_handle_iff_not_idle supInit SupReachable.init
  exact ⟨h.1, h.2.1 (.startOk 1 .silent), h.2.2 (.startOk 1 .silent)⟩

/-- Splitting a newline-free string yields the single line. -/
theorem splitLines_no_newline (a : List Char) (h : '\n' ∉ a) :
    splitLines a = [a] := by
  induction a with
  | nil => rfl
  | cons c rest ih =>
    have hc : ¬(c = '\n') := fun hc => h (hc ▸ List.mem_cons_self c rest)
    have hrest : '\n' ∉ rest := fun hm => h (List.mem_cons_of_mem c hm)
    simp only [splitLines, if_neg hc, ih hrest]

/-- Splitting at the first newline peels off the first line. -/
theorem splitLines_append (a b : List Char) (h : '\n' ∉ a) :
    splitLines (a ++ '\n' :: b) = a :: splitLines b := by
  induction a with
  | nil => simp [splitLines]
  | cons c rest ih =>
    have hc : ¬(c = '\n') := fun hc => h (hc ▸ List.mem_cons_self c rest)
    have hrest : '\n' ∉ rest := fun hm => h (List.mem_cons_of_mem c hm)
    simp only [List.cons_append, splitLines, if_neg hc, List.append_eq, ih hrest]

/-- Unfolding of `joinNL` on a list with at least two elements. -/
theorem joinNL_cons (x : List Char) (ys : List (List Char)) (h : ys ≠ []) :
    joinNL (x :: ys) = x ++ '\n' :: joinNL ys := by
  cases ys with
  | nil => exact absurd rfl h
  | cons y rest => rfl

/-- Splitting is the inverse of joining newline-free lines. -/
theorem splitLines_joinNL (ls : List (List Char)) (hne : ls ≠ [])
    (h : ∀ l ∈ ls, '\n' ∉ l) : splitLines (joinNL ls) = ls := by
  induction ls with
  | nil => exact absurd rfl hne
  | cons x ys ih =>
    cases ys with
    | nil => exact splitLines_no_newline x (h x (List.mem_cons_self x []))
    | cons y rest =>
      rw [joinNL_cons x (y :: rest) (by simp)]
      rw [splitLines_append x _ (h x (List.mem_cons_self x (y :: rest)))]
      rw [ih (by simp) (fun l hl => h l (List.mem_cons_of_mem x hl))]

/-- Splitting once at the first tab separates serial and status. -/
theorem splitTab1_append (s st : List Char) (h : '\t' ∉ s) :
    splitTab1 (s ++ '\t' :: st) = (s, st) := by
  induction s with
  | nil => simp [splitTab1]
  | cons c rest ih =>
    have hc : ¬(c = '\t') := fun hc => h (hc ▸ List.mem_cons_self c rest)
    have hrest : '\t' ∉ rest := fun hm => h (List.mem_cons_of_mem c hm)
    simp only [List.cons_append, splitTab1, if_neg hc, List.append_eq, ih hrest]

/-- Dropping leading whitespace is the identity when the head is not whitespace. -/
theorem dropWhileSpace_eq_self (a : Char) (l : List Char)
    (h : isPySpace a = false) :
    (a :: l).dropWhile isPySpace = a :: l := by
  simp [List.dropWhile_cons, h]

/-- Stripping is the identity when both ends are untouched by `dropWhile`. -/
theorem pyStrip_eq_self (l : List Char)
    (h1 : l.dropWhile isPySpace = l)
    (h2 : l.reverse.dropWhile isPySpace = l.reverse) :
    pyStrip l = l := by
  unfold pyStrip
  rw [h1, h2, List.reverse_reverse]

/-- A well-formed entry line is untouched by Python `strip`. -/
theorem entryLine_strip (s st : List Char) (hs : s ≠ []) (hst : st ≠ [])
    (hws : ∀ c ∈ s, isPySpace c = false)
    (hwst : ∀ c ∈ st, isPySpace c = false) :
    pyStrip (s ++ '\t' :: st) = s ++ '\t' :: st := by
  apply pyStrip_eq_self
  · cases s with
    | nil => exact absurd rfl hs
    | cons c rest =>
      rw [List.cons_append]
      exact dropWhileSpace_eq_self c _ (hws c (List.mem_cons_self c rest))
  · rcases hrev : st.reverse with _ | ⟨b, r⟩
    · exact absurd (by simpa using congrArg List.reverse hrev) hst
    · have hb : b ∈ st := by
        rw [← List.mem_reverse, hrev]
        exact List.mem_cons_self b r
      have hrw : (s ++ '\t' :: st).reverse = b :: (r ++ '\t' :: s.reverse) := by
        rw [List.reverse_append, List.reverse_cons, hrev]
        simp
      rw [hrw]
      exact dropWhileSpace_eq_self b _ (hwst b hb)

/-- A well-formed entry line contains no newline. -/
theorem entryLine_no_newline (s st : List Char)
    (hws : ∀ c ∈ s, isPySpace c = false)
    (hwst : ∀ c ∈ st, isPySpace c = false) :
    '\n' ∉ s ++ '\t' :: st := by
  intro hm
  rcases List.mem_append.mp hm with hm | hm
  · exact absurd (hws '\n' hm) (by decide)
  · rcases List.mem_cons.mp hm with hm | hm
    · exact absurd hm (by decide)
    · exact absurd (hwst '\n' hm) (by decide)

/-- The per-line parser keeps exactly the serial of a well-formed entry whose
status is `"device"`. -/
theorem parseDeviceLine_entry (s st : List Char) (hs : s ≠ []) (hst : st ≠ [])
    (hws : ∀ c ∈ s, isPySpace c = false)
    (hwst : ∀ c ∈ st, isPySpace c = false) :
    parseDeviceLine (s ++ '\t' :: st) =
      if st = deviceTok then some s else none := by
  have htab : '\t' ∉ s := fun hm => absurd (hws '\t' hm) (by decide)
  unfold parseDeviceLine
  rw [entryLine_strip s st hs hst hws hwst]
  rw [if_pos ⟨by simp, List.mem_append_right s (List.mem_cons_self '\t' st)⟩]
  rw [splitTab1_append s st htab]

/-- The line-by-line scan of well-formed entries keeps exactly the
`"device"`-status serials. -/
theorem filterMap_entryLines (entries : List (List Char × List Char))
    (h : ∀ e ∈ entries, WFEntry e) :
    (entries.map fun e => e.1 ++ '\t' :: e.2).filterMap parseDeviceLine
      = enumerateSpec entries := by
  induction entries with
  | nil => rfl
  | cons e rest ih =>
    rcases h e (List.mem_cons_self e rest) with ⟨hs, hst, hws, hwst⟩
    have hrest : ∀ x ∈ rest, WFEntry x := fun x hx => h x (List.mem_cons_of_mem e hx)
    by_cases hd : e.2 = deviceTok
    · rw [List.map_cons,
        List.filterMap_cons_some
          (by rw [parseDeviceLine_entry e.1 e.2 hs hst hws hwst, if_pos hd])]
      unfold enumerateSpec
      rw [List.filter_cons, if_pos (by simp [hd]), List.map_cons, ih hrest]
      rfl
    · rw [List.map_cons,
        List.filterMap_cons_none
          (by rw [parseDeviceLine_entry e.1 e.2 hs hst hws hwst, if_neg hd])]
      unfold enumerateSpec
      rw [List.filter_cons, if_neg (by simp [hd])]
      exact ih hrest

/-- The reverse of a joined line list starts with the reverse of its last line. -/
theorem joinNL_reverse (ls : List (List Char)) (hne : ls ≠ []) :
    ∃ r, (joinNL ls).reverse = (ls.getLast hne).reverse ++ r := by
  induction ls with
  | nil => exact absurd rfl hne
  | cons x ys ih =>
    cases ys with
    | nil => exact ⟨[], by simp [joinNL]⟩
    | cons y rest =>
      rcases ih (by simp) with ⟨r, hr⟩
      refine ⟨r ++ '\n' :: x.reverse, ?_⟩
      rw [joinNL_cons x (y :: rest) (by simp)]
      rw [List.getLast_cons (by simp)]
      rw [List.reverse_append, List.reverse_cons, hr]
      simp

/-- A well-formed device table is untouched by Python `strip`. -/
theorem renderDeviceList_strip (entries : List (List Char × List Char))
    (h : ∀ e ∈ entries, WFEntry e) :
    pyStrip (renderDeviceList entries) = renderDeviceList entries := by
  cases entries with
  | nil => decide
  | cons e rest =>
    apply pyStrip_eq_self
    · unfold renderDeviceList
      rw [joinNL_cons adbHeader _ (by simp)]
      exact dropWhileSpace_eq_self 'L' _ (by decide)
    · have hlines : (adbHeader :: (e :: rest).map fun x => x.1 ++ '\t' :: x.2) ≠ [] := by
        simp
      rcases joinNL_reverse _ hlines with ⟨r, hr⟩
      have hlast : (adbHeader :: (e :: rest).map fun x => x.1 ++ '\t' :: x.2).getLast hlines
          ∈ (e :: rest).map fun x => x.1 ++ '\t' :: x.2 := by
        have hmem := List.getLast_mem hlines
        rcases List.mem_cons.mp hmem with hh | hh
        · exfalso
          have hlen : ((e :: rest).map fun x => x.1 ++ '\t' :: x.2) ≠ [] := by simp
          rw [List.getLast_cons hlen] at hh
          have := List.getLast_mem hlen
          rw [hh] at this
          rcases List.mem_map.mp this with ⟨x, hx, hxeq⟩
          rcases h x hx with ⟨hs, hst, hws, hwst⟩
          have : '\t' ∈ adbHeader := by
            rw [← hxeq]
            exact List.mem_append_right x.1 (List.mem_cons_self '\t' x.2)
          exact absurd this (by decide)
        · exact hh
      rcases List.mem_map.mp hlast with ⟨x, hx, hxeq⟩
      rcases h x hx with ⟨hs, hst, hws, hwst⟩
      rcases hrev : x.2.reverse with _ | ⟨b, rr⟩
      · exact absurd (by simpa using congrArg List.reverse hrev) hst
      · have hb : b ∈ x.2 := by
          rw [← List.mem_reverse, hrev]
          exact List.mem_cons_self b rr
        have hrw : (renderDeviceList (e :: rest)).reverse
            = b :: (rr ++ '\t' :: x.1.reverse ++ r) := by
          unfold renderDeviceList
          rw [hr, ← hxeq, List.reverse_append, List.reverse_cons, hrev]
          simp
        rw [hrw]
        exact dropWhileSpace_eq_self b _ (hwst b hb)

/-- The enumeration parse of a rendered well-formed device table keeps exactly
the serials whose status token is `"device"`. -/
theorem scanParse_render (entries : List (List Char × List Char))
    (h : ∀ e ∈ entries, WFEntry e) :
    scanParse (renderDeviceList entries) = enumerateSpec entries := by
  cases entries with
  | nil => decide
  | cons e rest =>
    unfold scanParse
    rw [renderDeviceList_strip _ h]
    unfold renderDeviceList
    rw [splitLines_joinNL _ (by simp) ?hnl]
    case hnl =>
      intro l hl
      rcases List.mem_cons.mp hl with hh | hh
      · rw [hh]
        decide
      · rcases List.mem_map.mp hh with ⟨x, hx, hxeq⟩
        rcases h x hx with ⟨hs, hst, hws, hwst⟩
        rw [← hxeq]
        exact entryLine_no_newline x.1 x.2 hws hwst
    rw [List.drop_one, List.tail_cons]
    exact filterMap_entryLines _ h

/-- C6: the enumeration keeps exactly the entries whose status token is
`"device"` (dropping unauthorized and offline entries); when the device table
holds only non-`"device"`-status entries the result is empty and a no-device
event is logged; when the bridge tool is missing or the bounded call times out
(or fails in any other way), the result is likewise empty with a logged warning
followed by the no-device event — every failure is caught and converted, never
a fatal error. -/
theorem claim6_enumeration_ready_only :
    (∀ entries : List (List Char × List Char), (∀ e ∈ entries, WFEntry e) →
        scanParse (renderDeviceList entries) = enumerateSpec entries) ∧
    (∀ (entries : List (List Char × List Char)) (nameOf : String → String)
        (ram : Nat) (screenOf : String → Option (Nat × Nat))
        (modelOf : String → String) (st : AppState),
      (∀ e ∈ entries, WFEntry e) →
      (∀ e ∈ entries, e.2 ≠ deviceTok) →
        scanParse (renderDeviceList entries) = [] ∧
        (scanDevices (.output (renderDeviceList entries))
            nameOf ram screenOf modelOf st).2 = [.noDevice]) ∧
    (∀ (nameOf : String → String) (ram : Nat)
        (screenOf : String → Option (Nat × Nat)) (modelOf : String → String)
        (st : AppState),
      scanDevices .notFound nameOf ram screenOf modelOf st
        = ({ st with selection := noDeviceText, startEnabled := false },
           [.adbNotFound, .noDevice]) ∧
      scanDevices .timedOut nameOf ram screenOf modelOf st
        = ({ st with selection := noDeviceText, startEnabled := false },
           [.adbTimeout, .noDevice]) ∧
      scanDevices .failed nameOf ram screenOf modelOf st
        = ({ st with selection := noDeviceText, startEnabled := false },
           [.scanFailed, .noDevice])) := by
  refine ⟨scanParse_render, ?_, ?_⟩
  · intro entries nameOf ram screenOf modelOf st hwf hnd
    have hscan : scanParse (renderDeviceList entries) = [] := by
      rw [scanParse_render entries hwf]
      unfold enumerateSpec
      have hfil : entries.filter (fun e => e.2 = deviceTok) = [] := by
        rw [List.filter_eq_nil_iff]
        intro a ha
        simp [hnd a ha]
      rw [hfil]
      rfl
    refine ⟨hscan, ?_⟩
    simp [scanDevices, hscan, updateDeviceDropdown]
  · intro nameOf ram screenOf modelOf st
    refine ⟨rfl, rfl, rfl⟩

/-- C6 witness: a table of one ready and one unauthorized entry keeps only the
ready serial; a table with only unauthorized and offline entries yields the
empty list with the no-device log; every failure input yields the empty-device
update with its warning log. -/
theorem claim6_witness :
    (scanParse (renderDeviceList
        [("ABC123".toList, "device".toList), ("XYZ".toList, "unauthorized".toList)])
      = enumerateSpec
          [("ABC123".toList, "device".toList), ("XYZ".toList, "unauthorized".toList)]) ∧
    (scanParse (renderDeviceList
        [("XYZ".toList, "unauthorized".toList), ("Q1".toList, "offline".toList)])
      = [] ∧
      (scanDevices
          (.output (renderDeviceList
            [("XYZ".toList, "unauthorized".toList), ("Q1".toList, "offline".toList)]))
          (fun _ => "X") 8 (fun _ => none) (fun _ => "X")
          ⟨none, "Scanning...", ⟨"1080P (1920)", "60 fps", 16, "H.264 (Low Latency)"⟩,
            false, ""⟩).2 = [.noDevice]) ∧
    (scanDevices .notFound (fun _ => "X") 8 (fun _ => none) (fun _ => "X")
        ⟨none, "Scanning...", ⟨"1080P (1920)", "60 fps", 16, "H.264 (Low Latency)"⟩,
          false, ""⟩
      = ({ (⟨none, "Scanning...", ⟨"1080P (1920)", "60 fps", 16, "H.264 (Low Latency)"⟩,
            false, ""⟩ : AppState) with
           selection := noDeviceText, startEnabled := false },
         [.adbNotFound, .noDevice])) := by
  have h := claim6_enumeration_ready_only
  refine ⟨?_, ?_, ?_⟩
  · exact h.1 _ (by decide)
  · exact h.2.1 _ (fun _ => "X") 8 (fun _ => none) (fun _ => "X") _ (by decide) (by decide)
  · exact (h.2.2 (fun _ => "X") 8 (fun _ => none) (fun _ => "X") _).1

/-- Lookup by display name succeeds for any name occurring in the device list. -/
theorem find_name_of_mem (devices : List Device) (sel : String)
    (h : sel ∈ devices.map Device.name) :
    ∃ d, devices.find? (fun x => x.name = sel) = some d ∧ d ∈ devices ∧ d.name = sel := by
  induction devices with
  | nil => simp at h
  | cons d0 rest ih =>
    by_cases h0 : d0.name = sel
    · refine ⟨d0, ?_, List.mem_cons_self d0 rest, h0⟩
      exact List.find?_cons_of_pos _ (by simp [h0])
    · have hmem : sel ∈ rest.map Device.name := by
        rcases List.mem_map.mp h with ⟨d, hd, hds⟩
        rcases List.mem_cons.mp hd with rfl | hd'
        · exact absurd hds h0
        · exact List.mem_map.mpr ⟨d, hd', hds⟩
      rcases ih hmem with ⟨d, hf, hdm, hdn⟩
      refine ⟨d, ?_, List.mem_cons_of_mem d0 hdm, hdn⟩
      rw [List.find?_cons_of_neg _ (by simp [h0])]
      exact hf

/-- Exhaustive description of the pending-select step: either nothing matched
and the state is untouched with the flag clear, or a scanned device carries the
pending serial and is selected. -/
theorem pendingSelectPhase_cases (devices : List Device) (st : AppState) :
    ((st.pending = none ∨
        ∃ t, st.pending = some t ∧
          devices.find? (fun x => x.serial = t) = none) ∧
      pendingSelectPhase devices st = (st, [], false)) ∨
    ∃ target d, st.pending = some target ∧
      devices.find? (fun x => x.serial = target) = some d ∧
      pendingSelectPhase devices st =
        ({ st with selection := d.name, pending := none },
         [.autoSelect d.name], true) := by
  unfold pendingSelectPhase
  split
  · rename_i target hp
    split
    · rename_i d hf
      exact Or.inr ⟨target, d, hp, hf, rfl⟩
    · rename_i hf
      exact Or.inl ⟨Or.inr ⟨target, hp, hf⟩, rfl⟩
  · rename_i hp
    exact Or.inl ⟨Or.inl hp, rfl⟩

/-- The pending-select step never touches the stream parameters. -/
theorem pendingSelectPhase_params (devices : List Device) (st : AppState) :
    (pendingSelectPhase devices st).1.params = st.params := by
  rcases pendingSelectPhase_cases devices st with ⟨_, h⟩ | ⟨target, d, _, _, h⟩ <;> rw [h]

/-- The auto-configuration step changes only the stream parameters, never the
selection or the pending mark. -/
theorem autoConfigPhase_keeps_selection (devices : List Device) (ram : Nat)
    (screenOf : String → Option (Nat × Nat)) (modelOf : String → String)
    (st2 : AppState) :
    (autoConfigPhase devices ram screenOf modelOf st2).selection = st2.selection ∧
    (autoConfigPhase devices ram screenOf modelOf st2).pending = st2.pending := by
  unfold autoConfigPhase
  split
  · exact ⟨rfl, rfl⟩
  · exact ⟨rfl, rfl⟩

/-- The fallback-select step never touches the stream parameters. -/
theorem fallbackSelectPhase_params (n0 : String) (names : List String)
    (ap : AppState × List LogEvt × Bool) :
    (fallbackSelectPhase n0 names ap).params = ap.1.params := by
  unfold fallbackSelectPhase
  split_ifs <;> rfl

/-- After the pending and fallback steps on a non-empty name list, the selection
is one of the device display names. -/
theorem selectPhases_selection_mem (devices : List Device) (n0 : String)
    (ns : List String) (st : AppState)
    (hnames : devices.map Device.name = n0 :: ns) :
    (fallbackSelectPhase n0 (n0 :: ns) (pendingSelectPhase devices st)).selection
      ∈ devices.map Device.name := by
  have hfb : ∀ ap : AppState × List LogEvt × Bool,
      (ap.2.2 = true → ap.1.selection ∈ devices.map Device.name) →
      (fallbackSelectPhase n0 (n0 :: ns) ap).selection ∈ devices.map Device.name := by
    intro ap hflag
    unfold fallbackSelectPhase
    split_ifs with h1 h2
    · exact hflag h1
    · rw [hnames]
      exact List.mem_of_elem_eq_true h2
    · rw [hnames]
      exact List.mem_cons_self n0 ns
  apply hfb
  intro hflag
  rcases pendingSelectPhase_cases devices st with ⟨_, h⟩ | ⟨target, d, _, hf, h⟩
  · rw [h] at hflag
    simp at hflag
  · rw [h]
    have hdm : d ∈ devices := List.mem_of_find?_eq_some hf
    exact List.mem_map.mpr ⟨d, hdm, rfl⟩

/-- C10 (implicit): every enumeration that produces a non-empty device list
re-applies the Recommendation Engine output to the stream parameters for the
currently selected device, overwriting whatever values were set before —
the resulting parameters are exactly `applyAutoConfig` of the recommendation,
independent of the previous parameter values. -/
theorem claim10_refresh_overwrites_params (devices : List Device) (ram : Nat)
    (screenOf : String → Option (Nat × Nat)) (modelOf : String → String)
    (st : AppState) (hne : devices ≠ []) :
    ∃ d ∈ devices,
      (updateDeviceDropdown devices ram screenOf modelOf st).1.selection = d.name ∧
      (updateDeviceDropdown devices ram screenOf modelOf st).1.params =
        applyAutoConfig
          (generate_recommendation ram (screenOf d.serial) (modelOf d.serial))
          st.params := by
  rcases hnames : devices.map Device.name with _ | ⟨n0, ns⟩
  · exact absurd (List.map_eq_nil_iff.mp hnames) hne
  · have hupd : updateDeviceDropdown devices ram screenOf modelOf st =
        ({ autoConfigPhase devices ram screenOf modelOf
            (fallbackSelectPhase n0 (n0 :: ns) (pendingSelectPhase devices st))
          with startEnabled := true },
         (pendingSelectPhase devices st).2.1 ++ [.foundDevices (n0 :: ns).length]) := by
      unfold updateDeviceDropdown
      rw [hnames]
    set st2 := fallbackSelectPhase n0 (n0 :: ns) (pendingSelectPhase devices st) with hst2
    have hsel : st2.selection ∈ devices.map Device.name :=
      selectPhases_selection_mem devices n0 ns st hnames
    rcases find_name_of_mem devices st2.selection hsel with ⟨d, hf, hdm, hdn⟩
    refine ⟨d, hdm, ?_, ?_⟩
    · rw [hupd]
      unfold autoConfigPhase
      rw [hf]
      exact hdn.symm
    · rw [hupd]
      unfold autoConfigPhase
      rw [hf]
      simp [applyAutoConfig]

/-- C10 witness: a single-device list with fresh state gets the engine's
standard-tier parameters applied. -/
theorem claim10_witness :
    ∃ d ∈ [Device.mk "Sample X1 (ABC123)" "ABC123"],
      (updateDeviceDropdown [Device.mk "Sample X1 (ABC123)" "ABC123"] 8
          (fun _ => some (1920, 1080)) (fun _ => "X1")
          ⟨none, "Scanning...", ⟨"720P (1280)", "30 fps", 4, "H.265 (High Quality)"⟩,
            false, ""⟩).1.selection = d.name ∧
      (updateDeviceDropdown [Device.mk "Sample X1 (ABC123)" "ABC123"] 8
          (fun _ => some (1920, 1080)) (fun _ => "X1")
          ⟨none, "Scanning...", ⟨"720P (1280)", "30 fps", 4, "H.265 (High Quality)"⟩,
            false, ""⟩).1.params =
        applyAutoConfig
          (generate_recommendation 8 (some (1920, 1080)) "X1")
          ⟨"720P (1280)", "30 fps", 4, "H.265 (High Quality)"⟩ :=
  claim10_refresh_overwrites_params [Device.mk "Sample X1 (ABC123)" "ABC123"] 8
    (fun _ => some (1920, 1080)) (fun _ => "X1")
    ⟨none, "Scanning...", ⟨"720P (1280)", "30 fps", 4, "H.265 (High Quality)"⟩,
      false, ""⟩ (by decide)

/-- C8: when the bridge tool's connect output for IP `192.168.1.5` contains
`"connected"`, the serial `192.168.1.5:5555` is marked pending-select; the next
enumeration whose device list contains that serial selects that device's
display name, clears the pending mark, and logs the auto-selection. -/
theorem claim8_wireless_autoselect (output : String) (st : AppState)
    (devices : List Device) (d : Device) (ram : Nat)
    (screenOf : String → Option (Nat × Nat)) (modelOf : String → String)
    (hconn : containsSub "connected".toList (lowerList output.toList) = true)
    (hfind : devices.find? (fun x => x.serial = "192.168.1.5:5555") = some d) :
    (connectWireless "192.168.1.5" output st).pending = some "192.168.1.5:5555" ∧
    (updateDeviceDropdown devices ram screenOf modelOf
        (connectWireless "192.168.1.5" output st)).1.selection = d.name ∧
    (updateDeviceDropdown devices ram screenOf modelOf
        (connectWireless "192.168.1.5" output st)).1.pending = none ∧
    LogEvt.autoSelect d.name ∈
      (updateDeviceDropdown devices ram screenOf modelOf
        (connectWireless "192.168.1.5" output st)).2 := by
  have hst1 : connectWireless "192.168.1.5" output st =
      { st with pending := some "192.168.1.5:5555", lastIp := "192.168.1.5" } := by
    unfold connectWireless
    rw [hconn]
    with_unfolding_all rfl
  set st1 : AppState :=
    { st with pending := some "192.168.1.5:5555", lastIp := "192.168.1.5" } with hst1def
  rw [hst1]
  refine ⟨rfl, ?_⟩
  rcases hnames : devices.map Device.name with _ | ⟨n0, ns⟩
  · rw [List.map_eq_nil_iff.mp hnames] at hfind
    simp at hfind
  · have hupd : updateDeviceDropdown devices ram screenOf modelOf st1 =
        ({ autoConfigPhase devices ram screenOf modelOf
            (fallbackSelectPhase n0 (n0 :: ns) (pendingSelectPhase devices st1))
          with startEnabled := true },
         (pendingSelectPhase devices st1).2.1 ++
           [.foundDevices (n0 :: ns).length]) := by
      unfold updateDeviceDropdown
      rw [hnames]
    have hpend : pendingSelectPhase devices st1 =
        ({ st1 with selection := d.name, pending := none },
         [.autoSelect d.name], true) := by
      rcases pendingSelectPhase_cases devices st1 with ⟨hprov, _⟩ | ⟨t2, d2, hp2, hf2, h⟩
      · rcases hprov with hnone | ⟨t, hpt, hft⟩
        · exact absurd (show (some "192.168.1.5:5555" : Option String) = none from hnone)
            (by simp)
        · have ht := Option.some.inj
            (show (some "192.168.1.5:5555" : Option String) = some t from hpt)
          subst ht
          rw [hft] at hfind
          exact absurd hfind (by simp)
      · have ht2 := Option.some.inj
          (show (some "192.168.1.5:5555" : Option String) = some t2 from hp2)
        subst ht2
        rw [hf2] at hfind
        have hd2 : d2 = d := Option.some.inj hfind
        rw [hd2] at h
        exact h
    have hfb : fallbackSelectPhase n0 (n0 :: ns) (pendingSelectPhase devices st1) =
        { st1 with selection := d.name, pending := none } := by
      rw [hpend]
      rfl
    have hkeep := autoConfigPhase_keeps_selection devices ram screenOf modelOf
      { st1 with selection := d.name, pending := none }
    rw [hupd, hfb]
    refine ⟨?_, ?_, ?_⟩
    · exact hkeep.1
    · exact hkeep.2
    · rw [hpend]
      simp

/-- C8 witness: a connect output containing `connected`, followed by an
enumeration listing the wireless device, auto-selects it and clears the mark. -/
theorem claim8_witness :
    (connectWireless "192.168.1.5"
        "already connected to 192.168.1.5:5555"
        ⟨none, "Scanning...", ⟨"1080P (1920)", "60 fps", 16, "H.264 (Low Latency)"⟩,
          false, ""⟩).pending = some "192.168.1.5:5555" ∧
    (updateDeviceDropdown [Device.mk "Pixel 8 (Wireless)" "192.168.1.5:5555"] 8
        (fun _ => none) (fun _ => "Pixel 8")
        (connectWireless "192.168.1.5"
          "already connected to 192.168.1.5:5555"
          ⟨none, "Scanning...", ⟨"1080P (1920)", "60 fps", 16, "H.264 (Low Latency)"⟩,
            false, ""⟩)).1.selection = (Device.mk "Pixel 8 (Wireless)" "192.168.1.5:5555").name ∧
    (updateDeviceDropdown [Device.mk "Pixel 8 (Wireless)" "192.168.1.5:5555"] 8
        (fun _ => none) (fun _ => "Pixel 8")
        (connectWireless "192.168.1.5"
          "already connected to 192.168.1.5:5555"
          ⟨none, "Scanning...", ⟨"1080P (1920)", "60 fps", 16, "H.264 (Low Latency)"⟩,
            false, ""⟩)).1.pending = none ∧
    LogEvt.autoSelect (Device.mk "Pixel 8 (Wireless)" "192.168.1.5:5555").name ∈
      (updateDeviceDropdown [Device.mk "Pixel 8 (Wireless)" "192.168.1.5:5555"] 8
        (fun _ => none) (fun _ => "Pixel 8")
        (connectWireless "192.168.1.5"
          "already connected to 192.168.1.5:5555"
          ⟨none, "Scanning...", ⟨"1080P (1920)", "60 fps", 16, "H.264 (Low Latency)"⟩,
            false, ""⟩)).2 :=
  claim8_wireless_autoselect "already connected to 192.168.1.5:5555"
    ⟨none, "Scanning...", ⟨"1080P (1920)", "60 fps", 16, "H.264 (Low Latency)"⟩,
      false, ""⟩
    [Device.mk "Pixel 8 (Wireless)" "192.168.1.5:5555"]
    (Device.mk "Pixel 8 (Wireless)" "192.168.1.5:5555") 8
    (fun _ => none) (fun _ => "Pixel 8") (by decide) (by decide)

/-- C7 counterexample: a StreamParameters tuple with the borderless flag set is
not reproduced by a save/load round trip — `_save_config` never writes the
borderless, print-fps or window-position fields, so reloading yields the
startup default (borderless off). -/
theorem claim7_counterexample :
    loadConfig
        (saveConfig { initialUiConfigState with borderless := true } "" "zh" true)
        initialUiConfigState
      ≠ { initialUiConfigState with borderless := true } := by
  decide

/-- C7 amended: a save/load round trip reproduces the resolution, fps, bitrate
(including the boundary values 4 and 40), codec and screen-off fields exactly,
while the window position, borderless and print-fps fields are not persisted
and reload to the startup defaults (`center`, off, off). -/
theorem claim7_roundtrip_persisted_fields (u : UiConfigState)
    (lastIp lang : String) (tut : Bool) :
    (loadConfig (saveConfig u lastIp lang tut) initialUiConfigState).resolution
        = u.resolution ∧
    (loadConfig (saveConfig u lastIp lang tut) initialUiConfigState).fps = u.fps ∧
    (loadConfig (saveConfig u lastIp lang tut) initialUiConfigState).bitrate
        = u.bitrate ∧
    (loadConfig (saveConfig u lastIp lang tut) initialUiConfigState).codec
        = u.codec ∧
    (loadConfig (saveConfig u lastIp lang tut) initialUiConfigState).screenOff
        = u.screenOff ∧
    (loadConfig (saveConfig u lastIp lang tut) initialUiConfigState).windowPosition
        = "center" ∧
    (loadConfig (saveConfig u lastIp lang tut) initialUiConfigState).borderless
        = false ∧
    (loadConfig (saveConfig u lastIp lang tut) initialUiConfigState).printFps
        = false := by
  exact ⟨rfl, rfl, rfl, rfl, rfl, rfl, rfl, rfl⟩

end Scrcpy
